import Mathlib

/-!
Verification of the kanban CLI (`kanban.py`): a shallow embedding of its
data model and operations, followed by theorems about them.

Modelling conventions:
* A Python task dict is a `Task` record; every field that the program can set
  to `None` is an `Option String` (in `task_edit_vi`, any stored field may be
  assigned `None`, so all ten fields are optional in the model).
* The JSON store is a `Store`: insertion-ordered association lists mirroring
  Python dicts (`List (String × Task)` and `List (String × Sprint)`).
* Each mutating operation `f` returns `Option Store × List String`: the first
  component is `some s` exactly when the source calls `save_data` with store
  state `s` (`none` = nothing persisted, so the file on disk is unchanged),
  and the second component is the list of printed lines.
* `load_data` / `save_data` themselves (raw file I/O), the argparse layer and
  the external-editor subprocess are out of scope; `task_edit_vi` and
  `edit_task_comment` take the text read back from the editor as an argument.
-/

set_option maxHeartbeats 1000000

namespace Kanban

/-- Python truthiness of an optional string: `None` and `""` are falsy. -/
def truthy : Option String → Bool
  | none => false
  | some s => s ≠ ""

/-- How Python renders an optional string inside an f-string (`None` prints as `"None"`). -/
def pyStr : Option String → String
  | none => "None"
  | some s => s

/-- Python `str.strip()` : drop leading and trailing whitespace. -/
def pyTrim (s : String) : String :=
  String.mk (((s.data.dropWhile Char.isWhitespace).reverse.dropWhile Char.isWhitespace).reverse)

/-- Python `line.startswith(chr(35))` : the line opens with a hash. -/
def startsHash (s : String) : Bool :=
  match s.data with
  | [] => false
  | c :: _ => c == '#'

/-- Python `str.rstrip()` : drop trailing whitespace. -/
def rstripWs (s : String) : String :=
  String.mk ((s.data.reverse.dropWhile Char.isWhitespace).reverse)

/-- Python `content.rstrip(chr(10))` : drop trailing newline characters. -/
def rstripNl (s : String) : String :=
  String.mk ((s.data.reverse.dropWhile (fun c => c == '\n')).reverse)

/-- The fixed status order `STATUS_ORDER` of `kanban.py`. -/
def STATUS_ORDER : List String :=
  ["TODO", "IN_PROGRESS", "REVIEW", "TESTING_DEPLOYMENT", "DONE"]

/-- `validate_status` : membership in the five-member status enum. -/
def validate_status (s : String) : Bool :=
  STATUS_ORDER.contains s

/-- Gregorian leap year, as `datetime` uses. -/
def isLeapYear (y : Nat) : Bool :=
  y % 4 == 0 && (y % 100 != 0 || y % 400 == 0)

/-- Days in a month of a given year. -/
def daysInMonth (y m : Nat) : Nat :=
  if m == 2 then (if isLeapYear y then 29 else 28)
  else if m == 4 || m == 6 || m == 9 || m == 11 then 30
  else 31

/-- The numeric value of a digit string. -/
def natOfDigits (cs : List Char) : Nat :=
  cs.foldl (fun n c => n * 10 + (c.toNat - 48)) 0

/-- The day token of `strptime`'s `%d` pattern `3[01]|[12]\d|0[1-9]|[1-9]| [1-9]`
(one single-digit day may be space-padded), taken against the whole remaining
input since the format ends with `%d` and leftover input is rejected. -/
def dayTokVal : List Char → Option Nat
  | [c] => if decide ('1' ≤ c) && decide (c ≤ '9') then some (c.toNat - 48) else none
  | [c1, c2] =>
    if c1 == '3' && (c2 == '0' || c2 == '1') then some (30 + (c2.toNat - 48))
    else if (c1 == '1' || c1 == '2') && Char.isDigit c2 then
      some (10 * (c1.toNat - 48) + (c2.toNat - 48))
    else if c1 == '0' && decide ('1' ≤ c2) && decide (c2 ≤ '9') then some (c2.toNat - 48)
    else if c1 == ' ' && decide ('1' ≤ c2) && decide (c2 ≤ '9') then some (c2.toNat - 48)
    else none
  | _ => none

/-- The value of a two-digit month matching `strptime`'s `%m` alternatives
`1[0-2]|0[1-9]` (the one-digit `[1-9]` case is handled by the caller). -/
def monthVal2 (m1 m2 : Char) : Option Nat :=
  if m1 == '1' && (m2 == '0' || m2 == '1' || m2 == '2') then some (10 + (m2.toNat - 48))
  else if m1 == '0' && decide ('1' ≤ m2) && decide (m2 ≤ '9') then some (m2.toNat - 48)
  else none

/-- The day token against year and month: the day value must not exceed the
month's length (the `datetime.date` construction raises otherwise). -/
def dayOk (y m : Nat) (ds : List Char) : Bool :=
  match dayTokVal ds with
  | some d => decide (d ≤ daysInMonth y m)
  | none => false

/-- The `-%m-%d` tail of the pattern: a one-digit month is followed directly
by the hyphen, a two-digit month by its second digit and then the hyphen;
the two shapes are mutually exclusive, so no further backtracking exists. -/
def strptimeMd (y : Nat) : List Char → Bool
  | m1 :: '-' :: ds =>
    if decide ('1' ≤ m1) && decide (m1 ≤ '9') then dayOk y (m1.toNat - 48) ds else false
  | m1 :: m2 :: '-' :: ds =>
    (match monthVal2 m1 m2 with
     | some m => dayOk y m ds
     | none => false)
  | _ => false

/-- The whole `%Y-%m-%d` pattern: exactly four year digits (`\d\d\d\d`),
a hyphen, then the month/day tail; year 0 is rejected by the `datetime.date`
construction (`MINYEAR = 1`). -/
def strptimeYmd : List Char → Bool
  | y1 :: y2 :: y3 :: y4 :: '-' :: rest =>
    Char.isDigit y1 && Char.isDigit y2 && Char.isDigit y3 && Char.isDigit y4 &&
    decide (1 ≤ natOfDigits [y1, y2, y3, y4]) &&
    strptimeMd (natOfDigits [y1, y2, y3, y4]) rest
  | _ => false

/-- `validate_date` : `None` is valid; otherwise the string must parse with
`datetime.strptime(s, "%Y-%m-%d")`, modelled after `_strptime`'s compiled
pattern: exactly four year digits with year at least 1, month alternatives
`1[0-2]|0[1-9]|[1-9]`, day alternatives `3[01]|[12]\d|0[1-9]|[1-9]| [1-9]`
bounded by the month's length, hyphen separators, and no input left over. -/
def validate_date : Option String → Bool
  | none => true
  | some s => strptimeYmd s.data

/-- `validate_time_value` : `None` is valid, and any string is valid (the source
only rejects non-string values, which cannot arise for CLI/editor input). -/
def validate_time_value : Option String → Bool
  | _ => true

/-- A task record: the ten keys of the Python task dict.  Every field the
program can assign `None` to is optional. -/
structure Task where
  code : Option String
  name : Option String
  start_date : Option String
  review_date : Option String
  end_date : Option String
  status : Option String
  sprint_code : Option String
  comment : Option String
  estimated_time : Option String
  actual_time : Option String
deriving DecidableEq, Repr

/-- A sprint record: the five keys of the Python sprint dict.  `sprint add`
requires all four string arguments, and nothing ever assigns `None` to them. -/
structure Sprint where
  code : String
  name : String
  start_date : String
  end_date : String
  closed : Bool
deriving DecidableEq, Repr

/-- The persisted store: insertion-ordered `tasks` and `sprints` maps. -/
structure Store where
  tasks : List (String × Task)
  sprints : List (String × Sprint)
deriving DecidableEq, Repr

/-- Result of one CLI operation: the store passed to `save_data` (or `none`
when nothing is saved) and the printed lines. -/
abbrev Result := Option Store × List String

/-- Replace the value at the first entry with the given key (Python
`d[k] = v` for a key already present; in-place mutation of the found record). -/
def updEntry {β : Type} (k : String) (v : β) : List (String × β) → List (String × β)
  | [] => []
  | (k', v') :: rest => if k' == k then (k, v) :: rest else (k', v') :: updEntry k v rest

/-- `get_open_sprints` : the sprints whose `closed` flag is false. -/
def get_open_sprints (data : Store) : List Sprint :=
  (data.sprints.map Prod.snd).filter (fun s => !s.closed)

/-- The message printed by `validate_status` on failure. -/
def invalid_status_msg : String :=
  "Invalid status. Valid: " ++ String.intercalate ", " STATUS_ORDER

/-- The message printed by `validate_date` on failure. -/
def invalid_date_msg (d : Option String) : String :=
  "Invalid date format: " ++ pyStr d ++ " (expected YYYY-MM-DD)"

/-- The message printed by `validate_time_value` on failure. -/
def invalid_time_msg : String :=
  "Time must be a string like 1h, 30m, 1.5h"

/-- Arguments of `add` (the `add_task` function). -/
structure AddArgs where
  code : String
  name : String
  status : String
  sprint : Option String
  estimate : Option String
  start_date : Option String
  review_date : Option String
  end_date : Option String
deriving DecidableEq, Repr

/-- The task record inserted by a successful `add_task`. -/
def mkTask (a : AddArgs) : Task :=
  { code := some a.code
    name := some a.name
    start_date := a.start_date
    review_date := a.review_date
    end_date := a.end_date
    status := some a.status
    sprint_code := a.sprint
    comment := none
    estimated_time := a.estimate
    actual_time := none }

/-- `add_task` : create a task.  Duplicate code, invalid status/estimate/date,
missing or closed sprint each abort before any save. -/
def add_task (data : Store) (a : AddArgs) : Result :=
  if (data.tasks.lookup a.code).isSome then (none, ["Task already exists"])
  else if !validate_status a.status then (none, [invalid_status_msg])
  else if !validate_time_value a.estimate then (none, [invalid_time_msg])
  else if !validate_date a.start_date then (none, [invalid_date_msg a.start_date])
  else if !validate_date a.review_date then (none, [invalid_date_msg a.review_date])
  else if !validate_date a.end_date then (none, [invalid_date_msg a.end_date])
  else if truthy a.sprint && (data.sprints.lookup (a.sprint.getD "")).isNone then
    (none, ["Sprint not found"])
  else if truthy a.sprint &&
      ((data.sprints.lookup (a.sprint.getD "")).map Sprint.closed == some true) then
    (none, ["Sprint is closed"])
  else
    (some { data with tasks := data.tasks ++ [(a.code, mkTask a)] },
     ["Task " ++ a.code ++ " created"])

/-- The transition report printed by a successful `move_task`. -/
def move_msg (code : String) (old : Option String) (new : String) : String :=
  "Task " ++ code ++ " moved: " ++ pyStr old ++ " → " ++ new

/-- `move_task` : set the status of an existing task unconditionally (no sprint
revalidation), persist, and report `old → new`. -/
def move_task (data : Store) (code status : String) : Result :=
  match data.tasks.lookup code with
  | none => (none, ["Task not found"])
  | some task =>
    if !validate_status status then (none, [invalid_status_msg])
    else
      (some { data with tasks := updEntry code { task with status := some status } data.tasks },
       [move_msg code task.status status])

/-- Arguments of `task edit` (the `task_edit` function). -/
structure EditArgs where
  code : String
  name : Option String
  status : Option String
  estimate : Option String
  actual : Option String
  start_date : Option String
  review_date : Option String
  end_date : Option String
deriving DecidableEq, Repr

/-- The in-place mutation performed by the `args.name` block of `task_edit`. -/
def edit_set_name (a : EditArgs) (t : Task) : Task :=
  if truthy a.name then { t with name := a.name } else t

/-- The in-place mutation performed by the `args.status` block of `task_edit`. -/
def edit_set_status (a : EditArgs) (t : Task) : Task :=
  if truthy a.status then { t with status := a.status } else t

/-- The in-place mutation performed by the `args.estimate` block of `task_edit`. -/
def edit_set_estimate (a : EditArgs) (t : Task) : Task :=
  if a.estimate.isSome then { t with estimated_time := a.estimate } else t

/-- The in-place mutation performed by the `args.actual` block of `task_edit`. -/
def edit_set_actual (a : EditArgs) (t : Task) : Task :=
  if a.actual.isSome then { t with actual_time := a.actual } else t

/-- The in-place mutation performed by the `args.start_date` block of `task_edit`. -/
def edit_set_start (a : EditArgs) (t : Task) : Task :=
  if a.start_date.isSome then { t with start_date := a.start_date } else t

/-- The in-place mutation performed by the `args.review_date` block of `task_edit`. -/
def edit_set_review (a : EditArgs) (t : Task) : Task :=
  if a.review_date.isSome then { t with review_date := a.review_date } else t

/-- The in-place mutation performed by the `args.end_date` block of `task_edit`. -/
def edit_set_end (a : EditArgs) (t : Task) : Task :=
  if a.end_date.isSome then { t with end_date := a.end_date } else t

/-- The task record as it stands when `task_edit` reaches its save, after the
seven per-field blocks ran in source order. -/
def edit_final (a : EditArgs) (t : Task) : Task :=
  edit_set_end a (edit_set_review a (edit_set_start a (edit_set_actual a
    (edit_set_estimate a (edit_set_status a (edit_set_name a t))))))

/-- The `updated` flag of `task_edit`: some field block ran. -/
def edit_updated (a : EditArgs) : Bool :=
  truthy a.name || truthy a.status || a.estimate.isSome || a.actual.isSome ||
    a.start_date.isSome || a.review_date.isSome || a.end_date.isSome

/-- `task_edit` : field-level update.  The source applies each provided field
in order (name, status, estimate, actual, start, review, end) and returns on
the first validation failure; since the store is only saved at the very end,
an abort persists nothing.  `name` and `status` use Python truthiness, the
remaining fields test `is not None`.  (In the source each block mutates the
in-memory record before the next block validates; the mutations of an
aborted call are discarded unsaved, so the save only ever sees the full
`edit_final` record.) -/
def task_edit (data : Store) (a : EditArgs) : Result :=
  match data.tasks.lookup a.code with
  | none => (none, ["Task not found"])
  | some task0 =>
    if truthy a.status && !validate_status (a.status.getD "") then (none, [invalid_status_msg])
    else if a.estimate.isSome && !validate_time_value a.estimate then (none, [invalid_time_msg])
    else if a.actual.isSome && !validate_time_value a.actual then (none, [invalid_time_msg])
    else if a.start_date.isSome && !validate_date a.start_date then (none, [invalid_date_msg a.start_date])
    else if a.review_date.isSome && !validate_date a.review_date then (none, [invalid_date_msg a.review_date])
    else if a.end_date.isSome && !validate_date a.end_date then (none, [invalid_date_msg a.end_date])
    else if !edit_updated a then (none, ["No changes provided"])
    else
      (some { data with tasks := updEntry a.code (edit_final a task0) data.tasks },
       ["Task " ++ a.code ++ " updated"])

/-- Split a line at the first `=` character (Python `line.split("=", 1)`);
`none` when the line contains no `=`. -/
def splitAtFirstEq : List Char → Option (List Char × List Char)
  | [] => none
  | c :: rest =>
    if c == '=' then some ([], rest)
    else (splitAtFirstEq rest).map (fun p => (c :: p.1, p.2))

/-- Python `v.strip() or None` : the trimmed value, or `None` when it trims
to the empty string. -/
def stripOrNone (v : String) : Option String :=
  let v' := pyTrim v
  if v' == "" then none else some v'

/-- Insert or overwrite a key in the updates dict, preserving the insertion
position of an existing key (Python `updates[k] = v`). -/
def upsert (k : String) (v : Option String) : List (String × Option String) → List (String × Option String)
  | [] => [(k, v)]
  | (k', v') :: rest => if k' == k then (k, v) :: rest else (k', v') :: upsert k v rest

/-- State of the template-parsing loop of `task_edit_vi`. -/
structure ParseState where
  updates : List (String × Option String)
  comment_lines : List String
  in_comment : Bool
deriving DecidableEq, Repr

/-- One iteration of the parsing loop of `task_edit_vi` over a line already
stripped of its trailing newline. -/
def parse_line (st : ParseState) (line : String) : ParseState :=
  if line == "---COMMENT---" then { st with in_comment := true }
  else if st.in_comment then { st with comment_lines := st.comment_lines ++ [line] }
  else if line == "" || startsHash line then st
  else
    match splitAtFirstEq line.data with
    | none => st
    | some p =>
      { st with updates := upsert (String.mk p.1) (stripOrNone (String.mk p.2)) st.updates }

/-- The whole parsing loop of `task_edit_vi` over the editor text. -/
def parse_template (lines : List String) : ParseState :=
  lines.foldl parse_line { updates := [], comment_lines := [], in_comment := false }

/-- Python `updates.get(k)` : `None` both when the key is absent and when it
maps to `None`. -/
def uget (us : List (String × Option String)) (k : String) : Option String :=
  match us.lookup k with
  | some v => v
  | none => none

/-- The field names of the stored task record (the keys of the task dict);
`k in task` in the source tests membership here. -/
def task_keys : List String :=
  ["code", "name", "start_date", "review_date", "end_date", "status",
   "sprint_code", "comment", "estimated_time", "actual_time"]

/-- One iteration of the apply loop of `task_edit_vi`: `sprint` maps to
`sprint_code`, any key of the task dict is assigned directly, anything else
is skipped. -/
def apply_update (t : Task) (k : String) (v : Option String) : Task :=
  if k == "sprint" then { t with sprint_code := v }
  else if k == "code" then { t with code := v }
  else if k == "name" then { t with name := v }
  else if k == "start_date" then { t with start_date := v }
  else if k == "review_date" then { t with review_date := v }
  else if k == "end_date" then { t with end_date := v }
  else if k == "status" then { t with status := v }
  else if k == "sprint_code" then { t with sprint_code := v }
  else if k == "comment" then { t with comment := v }
  else if k == "estimated_time" then { t with estimated_time := v }
  else if k == "actual_time" then { t with actual_time := v }
  else t

/-- The whole apply loop of `task_edit_vi` over `updates.items()`. -/
def apply_updates (t : Task) (us : List (String × Option String)) : Task :=
  us.foldl (fun t kv => apply_update t kv.1 kv.2) t

/-- The comment stored by `task_edit_vi`: the joined comment block, stripped
of trailing whitespace, or `None` when only whitespace remains. -/
def comment_of_lines (cls : List String) : Option String :=
  let c := rstripWs (String.intercalate "\n" cls)
  if pyTrim c == "" then none else some c

/-- The parsed `updates` dict of `task_edit_vi`. -/
def vi_updates (lines : List String) : List (String × Option String) :=
  (parse_template lines).updates

/-- The task record saved by `task_edit_vi`: the apply loop, then the comment
block replacing the comment. -/
def vi_final (lines : List String) (task : Task) : Task :=
  { apply_updates task (vi_updates lines) with
      comment := comment_of_lines (parse_template lines).comment_lines }

/-- `task_edit_vi` : parse the text read back from the editor, batch-validate
status/dates/times and the `sprint` reference, then apply every update and
replace the comment with the comment block.  `lines` is the editor file
split into lines with trailing newlines removed. -/
def task_edit_vi (data : Store) (code : String) (lines : List String) : Result :=
  match data.tasks.lookup code with
  | none => (none, ["Task not found"])
  | some task =>
    if truthy (uget (vi_updates lines) "status") &&
        !validate_status ((uget (vi_updates lines) "status").getD "") then
      (none, [invalid_status_msg])
    else if truthy (uget (vi_updates lines) "start_date") &&
        !validate_date (uget (vi_updates lines) "start_date") then
      (none, [invalid_date_msg (uget (vi_updates lines) "start_date")])
    else if truthy (uget (vi_updates lines) "review_date") &&
        !validate_date (uget (vi_updates lines) "review_date") then
      (none, [invalid_date_msg (uget (vi_updates lines) "review_date")])
    else if truthy (uget (vi_updates lines) "end_date") &&
        !validate_date (uget (vi_updates lines) "end_date") then
      (none, [invalid_date_msg (uget (vi_updates lines) "end_date")])
    else if truthy (uget (vi_updates lines) "estimated_time") &&
        !validate_time_value (uget (vi_updates lines) "estimated_time") then
      (none, [invalid_time_msg])
    else if truthy (uget (vi_updates lines) "actual_time") &&
        !validate_time_value (uget (vi_updates lines) "actual_time") then
      (none, [invalid_time_msg])
    else if truthy (uget (vi_updates lines) "sprint") &&
        (data.sprints.lookup ((uget (vi_updates lines) "sprint").getD "")).isNone then
      (none, ["Sprint not found"])
    else if truthy (uget (vi_updates lines) "sprint") &&
        ((data.sprints.lookup ((uget (vi_updates lines) "sprint").getD "")).map Sprint.closed == some true) then
      (none, ["Sprint is closed"])
    else
      (some { data with tasks := updEntry code (vi_final lines task) data.tasks },
       ["Task " ++ code ++ " updated via editor"])

/-- The comment stored by `edit_task_comment`: the editor file content
stripped of trailing newlines, or `None` when only whitespace remains. -/
def comment_value (content0 : String) : Option String :=
  if pyTrim (rstripNl content0) == "" then none else some (rstripNl content0)

/-- `edit_task_comment` : replace the comment with the editor file content. -/
def edit_task_comment (data : Store) (code : String) (content0 : String) : Result :=
  match data.tasks.lookup code with
  | none => (none, ["Task not found"])
  | some task =>
    (some { data with tasks := updEntry code { task with comment := comment_value content0 } data.tasks },
     ["Comment updated for task " ++ code])

/-- A task status usable as a key of the `grouped` dict of `board_tasks`;
any other status raises `KeyError` in the source. -/
def statusValid (t : Task) : Bool :=
  match t.status with
  | some s => STATUS_ORDER.contains s
  | none => false

/-- One board line for a task: code, name, and the comment marker. -/
def task_board_line (t : Task) : String :=
  pyStr t.code ++ "  " ++ pyStr t.name ++ " " ++ (if truthy t.comment then "💬" else "")

/-- A run of a repeated character (Python `"-" * n`). -/
def charRun (n : Nat) (c : Char) : String :=
  String.mk (List.replicate n c)

/-- One step of building the `grouped` dict: append the task to its status
bucket. -/
def group_insert (g : String → List Task) (t : Task) : String → List Task :=
  fun s => if t.status == some s then g s ++ [t] else g s

/-- The `grouped` dict of `board_tasks`, as a function from status to bucket. -/
def grouped_of (tasks : List Task) : String → List Task :=
  tasks.foldl group_insert (fun _ => [])

/-- The lines printed for one status bucket. -/
def bucket_lines (g : String → List Task) (st : String) : List String :=
  [st, charRun st.length '-'] ++
  (match g st with
   | [] => ["(no tasks)"]
   | ts => ts.map task_board_line) ++ [""]

/-- The board title, with the sprint suffix when the board is sprint-scoped. -/
def board_title (sp : Option Sprint) : String :=
  match sp with
  | none => "KANBAN BOARD"
  | some s => "KANBAN BOARD — " ++ s.code ++ " (" ++ s.name ++ ")"

/-- The full board output for a selection of tasks, or `none` when a selected
task has a status outside the five buckets (the source raises `KeyError`
while grouping, before printing anything). -/
def board_render (sp : Option Sprint) (sel : List Task) : Option (List String) :=
  if sel.all statusValid then
    some ([board_title sp, charRun (board_title sp).length '=', ""] ++
      (STATUS_ORDER.map (bucket_lines (grouped_of sel))).flatten)
  else none

/-- `board_tasks` : the board projection.  The first component is the saved
store — always `none`, the function never calls `save_data`; the second is
the printed output (`none` = crash on an out-of-enum status). -/
def board_tasks (data : Store) (current : Bool) (sprintArg : Option String) :
    Option Store × Option (List String) :=
  if current then
    match get_open_sprints data with
    | [] => (none, some ["No active sprint found"])
    | [s] =>
      (none, board_render (some s)
        ((data.tasks.map Prod.snd).filter (fun t => t.sprint_code == some s.code)))
    | _ :: _ :: _ => (none, some ["More than one active sprint found"])
  else
    match sprintArg with
    | some sp =>
      if sp ≠ "" then
        match data.sprints.lookup sp with
        | none => (none, some ["Sprint not found"])
        | some s =>
          (none, board_render (some s)
            ((data.tasks.map Prod.snd).filter (fun t => t.sprint_code == some sp)))
      else (none, board_render none (data.tasks.map Prod.snd))
    | none => (none, board_render none (data.tasks.map Prod.snd))

/-- `sprint_add` : create a sprint with `closed := false`; a duplicate code
aborts before any save.  The start/end dates are not format-validated. -/
def sprint_add (data : Store) (code name start_d end_d : String) : Result :=
  if (data.sprints.lookup code).isSome then (none, ["Sprint already exists"])
  else
    (some { data with sprints :=
        data.sprints ++ [(code, { code := code, name := name, start_date := start_d,
                                  end_date := end_d, closed := false })] },
     ["Sprint " ++ code ++ " created"])

/-- The condition under which `sprint_close` returns a task to the backlog:
it belongs to the closing sprint and is not `DONE`. -/
def close_cond (code : String) (t : Task) : Bool :=
  t.sprint_code == some code && t.status != some "DONE"

/-- The two lines printed by a successful `sprint_close`. -/
def sprint_close_msgs (code : String) (moved : Nat) : List String :=
  ["Sprint " ++ code ++ " closed", toString moved ++ " unfinished tasks moved back to backlog"]

/-- `sprint_close` : close an open sprint, returning its unfinished tasks to
the backlog and counting them; absent or already-closed sprints abort before
any mutation is saved. -/
def sprint_close (data : Store) (code : String) : Result :=
  match data.sprints.lookup code with
  | none => (none, ["Sprint not found"])
  | some sprint =>
    if sprint.closed then (none, ["Sprint already closed"])
    else
      (some { tasks := data.tasks.map (fun kt =>
                (kt.1, if close_cond code kt.2 then { kt.2 with sprint_code := none } else kt.2)),
              sprints := updEntry code { sprint with closed := true } data.sprints },
       sprint_close_msgs code ((data.tasks.map Prod.snd).countP (close_cond code)))

/-! Concrete stores used to instantiate the theorems. -/

/-- A plain backlog task. -/
def task0 : Task :=
  { code := some "T1", name := some "Old", start_date := none, review_date := none,
    end_date := none, status := some "TODO", sprint_code := none, comment := none,
    estimated_time := none, actual_time := none }

/-- A one-task store. -/
def store0 : Store := { tasks := [("T1", task0)], sprints := [] }

/-- A task carrying a non-empty comment. -/
def task1 : Task := { task0 with code := some "T2", comment := some "keep" }

/-- A one-task store whose task has a comment. -/
def store1 : Store := { tasks := [("T2", task1)], sprints := [] }

/-- An open sprint. -/
def sprOpen : Sprint :=
  { code := "S2", name := "SprintTwo", start_date := "2024-01-01", end_date := "2024-01-15",
    closed := false }

/-- A closed sprint. -/
def sprClosed : Sprint :=
  { code := "S1", name := "SprintOne", start_date := "2024-01-01", end_date := "2024-01-15",
    closed := true }

/-- An unfinished task inside the open sprint. -/
def taskA : Task := { task0 with code := some "A", sprint_code := some "S2" }

/-- A finished task inside the open sprint. -/
def taskB : Task :=
  { task0 with code := some "B", sprint_code := some "S2", status := some "DONE" }

/-- A store with one open sprint holding one unfinished and one finished task. -/
def storeClose : Store :=
  { tasks := [("A", taskA), ("B", taskB)], sprints := [("S2", sprOpen)] }

/-- A store whose only sprint is closed. -/
def storeClosedSpr : Store := { tasks := [], sprints := [("S1", sprClosed)] }

/-- The empty store. -/
def emptyStore : Store := { tasks := [], sprints := [] }

/-- Arguments for creating a task with the already-taken code T1. -/
def dupArgs : AddArgs :=
  { code := "T1", name := "X", status := "TODO", sprint := none, estimate := none,
    start_date := none, review_date := none, end_date := none }

/-- Edit arguments carrying a valid new name and an invalid start date. -/
def badDateArgs : EditArgs :=
  { code := "T1", name := some "NewName", status := none, estimate := none,
    actual := none, start_date := some "2024-99-99", review_date := none, end_date := none }

/-! Helper lemmas on association lists. -/

/-- Looking up in a value-mapped association list. -/
theorem lookup_map_val {β : Type} (f : β → β) (l : List (String × β)) (k : String) :
    List.lookup k (l.map (fun kt => (kt.1, f kt.2))) = (List.lookup k l).map f := by
  induction l with
  | nil => rfl
  | cons kt rest ih =>
    cases h : (k == kt.1) with
    | true => simp [List.lookup, h]
    | false => simp [List.lookup, h, ih]

/-- Replacing the entry of a present key makes that key look up the new value. -/
theorem lookup_updEntry_self {β : Type} (k : String) (v w : β) (l : List (String × β))
    (h : List.lookup k l = some w) : List.lookup k (updEntry k v l) = some v := by
  induction l with
  | nil => simp [List.lookup] at h
  | cons kt rest ih =>
    by_cases hk : kt.1 = k
    · simp [updEntry, hk]
    · have hk' : (kt.1 == k) = false := by simp [hk]
      have hk'' : (k == kt.1) = false := by
        simp only [beq_eq_false_iff_ne, ne_eq]
        exact fun hcontra => hk hcontra.symm
      simp only [List.lookup, hk''] at h
      simp only [updEntry, hk']
      simp only [List.lookup, hk'']
      exact ih h

/-- Replacing the entry of one key leaves every other key unchanged. -/
theorem lookup_updEntry_ne {β : Type} (k k' : String) (v : β) (l : List (String × β))
    (h : k' ≠ k) : List.lookup k' (updEntry k v l) = List.lookup k' l := by
  induction l with
  | nil => rfl
  | cons kt rest ih =>
    by_cases hk : kt.1 = k
    · have h1 : (kt.1 == k) = true := by simp [hk]
      have h2 : (k' == k) = false := by simp [h]
      have h3 : (k' == kt.1) = false := by simp [hk, h]
      simp only [updEntry, h1, if_true, List.lookup, h2, h3]
    · have h1 : (kt.1 == k) = false := by simp [hk]
      simp only [updEntry, h1, if_false, List.lookup]
      cases h2 : (k' == kt.1) with
      | true => rfl
      | false => exact ih

/-- Looking up past a prefix that does not hold the key. -/
theorem lookup_append_none {β : Type} (k : String) (l1 l2 : List (String × β))
    (h : List.lookup k l1 = none) : List.lookup k (l1 ++ l2) = List.lookup k l2 := by
  induction l1 with
  | nil => rfl
  | cons kt rest ih =>
    cases h2 : (k == kt.1) with
    | true =>
      simp only [List.lookup, h2] at h
      exact (Option.some_ne_none _ h).elim
    | false =>
      simp only [List.lookup, h2] at h
      simp only [List.cons_append, List.lookup, h2]
      exact ih h

/-- Appending one entry with a different key does not change a lookup. -/
theorem lookup_append_single_ne {β : Type} (k c : String) (v : β) (l : List (String × β))
    (h : k ≠ c) : List.lookup k (l ++ [(c, v)]) = List.lookup k l := by
  induction l with
  | nil =>
    have h2 : (k == c) = false := by simp only [beq_eq_false_iff_ne, ne_eq]; exact h
    simp [List.lookup, h2]
  | cons kt rest ih =>
    cases h2 : (k == kt.1) with
    | true => simp [List.lookup, h2]
    | false => simp only [List.cons_append, List.lookup, h2]; exact ih

/-- A key that appears on no entry looks up to nothing. -/
theorem lookup_eq_none_of_keys_ne {β : Type} (k : String) (l : List (String × β))
    (h : ∀ kv ∈ l, kv.1 ≠ k) : List.lookup k l = none := by
  induction l with
  | nil => rfl
  | cons kt rest ih =>
    have hk : kt.1 ≠ k := h kt (List.mem_cons_self kt rest)
    have h2 : (k == kt.1) = false := by
      simp only [beq_eq_false_iff_ne, ne_eq]
      exact fun hcontra => hk hcontra.symm
    simp only [List.lookup, h2]
    exact ih (fun kv hkv => h kv (List.mem_cons_of_mem kt hkv))

/-! Helper lemmas on the board grouping. -/

/-- The grouping fold, started from any accumulator, appends the filtered
tasks of the bucket. -/
theorem foldl_group_insert (ts : List Task) (g : String → List Task) (st : String) :
    (ts.foldl group_insert g) st = g st ++ ts.filter (fun t => t.status == some st) := by
  induction ts generalizing g with
  | nil => simp
  | cons t rest ih =>
    simp only [List.foldl_cons, List.filter_cons]
    rw [ih]
    by_cases h : (t.status == some st) = true
    · simp [group_insert, h]
    · simp only [Bool.not_eq_true] at h
      simp [group_insert, h]

/-- The `grouped` dict holds, per status, exactly the tasks with that status,
in selection order. -/
theorem grouped_of_eq_filter (ts : List Task) (st : String) :
    grouped_of ts st = ts.filter (fun t => t.status == some st) := by
  simpa using foldl_group_insert ts (fun _ => []) st

/-- The bucket rendering, written with an emptiness test. -/
theorem bucket_lines_eq (g : String → List Task) (st : String) :
    bucket_lines g st =
      [st, charRun st.length '-'] ++
      (if (g st).isEmpty then ["(no tasks)"] else (g st).map task_board_line) ++ [""] := by
  unfold bucket_lines
  cases h : g st with
  | nil => simp
  | cons a l => simp

/-! Helper lemmas on the editor-template parser and apply loop. -/

/-- An update entry whose key is neither `sprint` nor a field of the task dict
does nothing. -/
theorem apply_update_unknown (t : Task) (k : String) (v : Option String)
    (h1 : k ∉ task_keys) (h2 : k ≠ "sprint") : apply_update t k v = t := by
  simp only [task_keys, List.mem_cons, List.not_mem_nil, or_false, not_or] at h1
  obtain ⟨hc, hn, hsd, hrd, hed, hst, hsc, hcm, het, hat⟩ := h1
  simp [apply_update, beq_iff_eq, h2, hc, hn, hsd, hrd, hed, hst, hsc, hcm, het, hat]

/-- The whole apply loop does nothing when every key is unrecognized. -/
theorem apply_updates_unknown (t : Task) (us : List (String × Option String))
    (h : ∀ kv ∈ us, kv.1 ∉ task_keys ∧ kv.1 ≠ "sprint") : apply_updates t us = t := by
  induction us generalizing t with
  | nil => rfl
  | cons kv rest ih =>
    have hkv := h kv (List.mem_cons_self kv rest)
    simp only [apply_updates, List.foldl_cons]
    rw [show (apply_update t kv.1 kv.2) = t from apply_update_unknown t kv.1 kv.2 hkv.1 hkv.2]
    exact ih t (fun kv' hkv' => h kv' (List.mem_cons_of_mem kv hkv'))

/-- A parse step on a line other than the marker, outside the comment section,
leaves the comment state untouched. -/
theorem parse_line_no_marker (st : ParseState) (l : String)
    (hl : l ≠ "---COMMENT---") (hin : st.in_comment = false) :
    (parse_line st l).comment_lines = st.comment_lines ∧
    (parse_line st l).in_comment = false := by
  have h1 : (l == "---COMMENT---") = false := by
    simp only [beq_eq_false_iff_ne, ne_eq]; exact hl
  constructor
  · unfold parse_line
    rw [h1, hin]
    simp only [Bool.false_eq_true, if_false]
    split
    · rfl
    · split <;> rfl
  · unfold parse_line
    rw [h1, hin]
    simp only [Bool.false_eq_true, if_false]
    split
    · exact hin
    · split <;> first | rfl | exact hin

/-- Without the marker line, the parse loop collects no comment lines. -/
theorem parse_fold_no_marker (lines : List String) (st : ParseState)
    (hin : st.in_comment = false) (hm : "---COMMENT---" ∉ lines) :
    (lines.foldl parse_line st).comment_lines = st.comment_lines ∧
    (lines.foldl parse_line st).in_comment = false := by
  induction lines generalizing st with
  | nil => exact ⟨rfl, hin⟩
  | cons l rest ih =>
    have hl : l ≠ "---COMMENT---" := by
      intro h; exact hm (h ▸ List.mem_cons_self l rest)
    have hrest : "---COMMENT---" ∉ rest := fun h => hm (List.mem_cons_of_mem l h)
    have hstep := parse_line_no_marker st l hl hin
    simp only [List.foldl_cons]
    have := ih (parse_line st l) hstep.2 hrest
    exact ⟨this.1.trans hstep.1, this.2⟩

/-- Without the marker line, the parsed template has no comment block. -/
theorem parse_template_no_marker (lines : List String) (hm : "---COMMENT---" ∉ lines) :
    (parse_template lines).comment_lines = [] :=
  (parse_fold_no_marker lines { updates := [], comment_lines := [], in_comment := false } rfl hm).1

/-! Helper lemmas: which operations can touch the sprints map. -/

/-- `add_task` never changes the sprints map. -/
theorem add_task_preserves_sprints (data : Store) (a : AddArgs) (d' : Store)
    (h : (add_task data a).1 = some d') : d'.sprints = data.sprints := by
  unfold add_task at h
  repeat' split at h
  all_goals first
    | (obtain rfl := Option.some.inj h; rfl)
    | exact absurd h (by simp)

/-- `move_task` never changes the sprints map. -/
theorem move_task_preserves_sprints (data : Store) (code status : String) (d' : Store)
    (h : (move_task data code status).1 = some d') : d'.sprints = data.sprints := by
  unfold move_task at h
  repeat' split at h
  all_goals first
    | (obtain rfl := Option.some.inj h; rfl)
    | exact absurd h (by simp)

/-- `task_edit` never changes the sprints map. -/
theorem task_edit_preserves_sprints (data : Store) (a : EditArgs) (d' : Store)
    (h : (task_edit data a).1 = some d') : d'.sprints = data.sprints := by
  unfold task_edit at h
  repeat' split at h
  all_goals first
    | (obtain rfl := Option.some.inj h; rfl)
    | exact absurd h (by simp)

/-- `task_edit_vi` never changes the sprints map. -/
theorem task_edit_vi_preserves_sprints (data : Store) (code : String) (lines : List String)
    (d' : Store) (h : (task_edit_vi data code lines).1 = some d') : d'.sprints = data.sprints := by
  unfold task_edit_vi at h
  repeat' split at h
  all_goals first
    | (obtain rfl := Option.some.inj h; rfl)
    | exact absurd h (by simp)

/-- `edit_task_comment` never changes the sprints map. -/
theorem edit_task_comment_preserves_sprints (data : Store) (code content0 : String)
    (d' : Store) (h : (edit_task_comment data code content0).1 = some d') :
    d'.sprints = data.sprints := by
  unfold edit_task_comment at h
  repeat' split at h
  all_goals first
    | (obtain rfl := Option.some.inj h; rfl)
    | exact absurd h (by simp)

/-- `board_tasks` never saves the store. -/
theorem board_tasks_no_save (data : Store) (current : Bool) (sprintArg : Option String) :
    (board_tasks data current sprintArg).1 = none := by
  unfold board_tasks
  repeat' split
  all_goals rfl

/-- The rendered board of a selection, with the grouping dict replaced by
per-status filters and the bucket rendering written with an emptiness test. -/
theorem board_render_out (sp : Option Sprint) (sel : List Task) (out : List String)
    (h : board_render sp sel = some out) :
    out = [board_title sp, charRun (board_title sp).length '=', ""] ++
      (STATUS_ORDER.map (fun st =>
        [st, charRun st.length '-'] ++
        (if (sel.filter (fun t => t.status == some st)).isEmpty then ["(no tasks)"]
         else (sel.filter (fun t => t.status == some st)).map task_board_line) ++
        [""])).flatten := by
  unfold board_render at h
  split at h
  · obtain rfl := Option.some.inj h
    have hfun : bucket_lines (grouped_of sel) = fun st =>
        [st, charRun st.length '-'] ++
        (if (sel.filter (fun t => t.status == some st)).isEmpty then ["(no tasks)"]
         else (sel.filter (fun t => t.status == some st)).map task_board_line) ++
        [""] := by
      funext st
      rw [bucket_lines_eq, grouped_of_eq_filter]
    rw [hfun]
  · exact absurd h (by simp)

/-- A selection whose statuses all lie in the enum always renders. -/
theorem board_render_isSome (sp : Option Sprint) (sel : List Task)
    (h : sel.all statusValid = true) : (board_render sp sel).isSome = true := by
  unfold board_render
  rw [if_pos h]
  rfl

/-- A Boolean holding on a list holds on any sub-selection of it. -/
theorem all_of_mem_all {p : Task → Bool} (l : List Task) (sel : List Task)
    (hsub : ∀ t ∈ sel, t ∈ l) (h : l.all p = true) : sel.all p = true := by
  rw [List.all_eq_true] at h ⊢
  exact fun t ht => h t (hsub t ht)

/-- The board output is one of the three failure reports or the rendering of
a selection of the store's tasks. -/
theorem board_tasks_out_inv (data : Store) (current : Bool) (sprintArg : Option String) :
    (board_tasks data current sprintArg).2 = some ["No active sprint found"] ∨
    (board_tasks data current sprintArg).2 = some ["More than one active sprint found"] ∨
    (board_tasks data current sprintArg).2 = some ["Sprint not found"] ∨
    ∃ sp sel, (∀ t ∈ sel, t ∈ data.tasks.map Prod.snd) ∧
      (board_tasks data current sprintArg).2 = board_render sp sel := by
  unfold board_tasks
  repeat' split
  all_goals first
    | exact Or.inl rfl
    | exact Or.inr (Or.inl rfl)
    | exact Or.inr (Or.inr (Or.inl rfl))
    | (refine Or.inr (Or.inr (Or.inr ⟨_, _, ?_, rfl⟩))
       intro t ht
       first
         | exact (List.mem_filter.mp ht).1
         | exact ht)

/-- A saving run of `task_edit_vi` found the task and stored `vi_final`. -/
theorem task_edit_vi_success_inv (data : Store) (code : String) (lines : List String)
    (d' : Store) (hsave : (task_edit_vi data code lines).1 = some d') :
    ∃ task, data.tasks.lookup code = some task ∧
      d' = { data with tasks := updEntry code (vi_final lines task) data.tasks } := by
  unfold task_edit_vi at hsave
  split at hsave
  · exact absurd hsave (by simp)
  · rename_i task heq
    refine ⟨task, heq, ?_⟩
    repeat' split at hsave
    any_goals simp at hsave
    all_goals exact hsave.symm

/-- The result of `sprint_close` on an existing open sprint. -/
theorem sprint_close_open_eq (data : Store) (code : String) (sprint : Sprint)
    (hfind : data.sprints.lookup code = some sprint) (hopen : sprint.closed = false) :
    sprint_close data code =
      (some { tasks := data.tasks.map (fun kt =>
                         (kt.1, if close_cond code kt.2
                                then { kt.2 with sprint_code := none } else kt.2)),
              sprints := updEntry code { sprint with closed := true } data.sprints },
       sprint_close_msgs code ((data.tasks.map Prod.snd).countP (close_cond code))) := by
  unfold sprint_close
  rw [hfind]
  simp [hopen]

/-- `validate_status` accepts exactly the members of the status enum. -/
theorem validate_status_iff (s : String) : validate_status s = true ↔ s ∈ STATUS_ORDER := by
  unfold validate_status
  exact List.elem_iff

/-! Claim theorems. -/

/-- C7: creating a task whose code already exists fails with the
already-exists report and performs no save, so the existing record and the
rest of the persisted store stay exactly as they were. -/
theorem add_task_duplicate_spec (data : Store) (a : AddArgs)
    (h : (data.tasks.lookup a.code).isSome = true) :
    add_task data a = (none, ["Task already exists"]) := by
  unfold add_task
  rw [if_pos h]

/-- C7 witness: adding a second task T1 over `store0`. -/
theorem add_task_duplicate_spec_witness :
    (store0.tasks.lookup dupArgs.code).isSome = true ∧
    add_task store0 dupArgs = (none, ["Task already exists"]) :=
  ⟨by decide, add_task_duplicate_spec store0 dupArgs (by decide)⟩

/-- C5: for an existing task and a status inside the five-member enum,
`move_task` sets the status unconditionally — whatever the old status and
sprint membership — persists, and reports the transition old → new; an
absent task code or an out-of-enum status fails with nothing saved. -/
theorem move_task_spec (data : Store) (code status : String) :
    (∀ task, data.tasks.lookup code = some task → status ∈ STATUS_ORDER →
      move_task data code status =
        (some { data with
                  tasks := updEntry code { task with status := some status } data.tasks },
         [move_msg code task.status status])) ∧
    (data.tasks.lookup code = none →
      move_task data code status = (none, ["Task not found"])) ∧
    (status ∉ STATUS_ORDER → (move_task data code status).1 = none) := by
  refine ⟨?_, ?_, ?_⟩
  · intro task hl hmem
    have hv : validate_status status = true := (validate_status_iff status).mpr hmem
    unfold move_task
    rw [hl]
    simp [hv]
  · intro hl
    unfold move_task
    rw [hl]
  · intro hmem
    have hv : validate_status status = false := by
      cases hvs : validate_status status with
      | false => rfl
      | true => exact absurd ((validate_status_iff status).mp hvs) hmem
    unfold move_task
    cases hl : data.tasks.lookup code with
    | none => rfl
    | some task => simp [hv]

/-- C5 witness: moving T1 of `store0` to REVIEW. -/
theorem move_task_spec_witness :
    store0.tasks.lookup "T1" = some task0 ∧ "REVIEW" ∈ STATUS_ORDER ∧
    move_task store0 "T1" "REVIEW" =
      (some { store0 with
                tasks := updEntry "T1" { task0 with status := some "REVIEW" } store0.tasks },
       [move_msg "T1" task0.status "REVIEW"]) :=
  ⟨by decide, by decide, (move_task_spec store0 "T1" "REVIEW").1 task0 (by decide) (by decide)⟩

/-- C9: the current board scope needs exactly one open sprint: with zero
open sprints it reports no active sprint, with two or more it reports the
ambiguity, the two reports are distinct, and neither case saves anything. -/
theorem board_current_scope_spec (data : Store) (sprintArg : Option String) :
    (get_open_sprints data = [] →
      board_tasks data true sprintArg = (none, some ["No active sprint found"])) ∧
    (2 ≤ (get_open_sprints data).length →
      board_tasks data true sprintArg = (none, some ["More than one active sprint found"])) ∧
    (["No active sprint found"] : List String) ≠ ["More than one active sprint found"] := by
  refine ⟨?_, ?_, by decide⟩
  · intro h
    unfold board_tasks
    rw [if_pos rfl, h]
  · intro h
    unfold board_tasks
    rw [if_pos rfl]
    cases hs : get_open_sprints data with
    | nil => rw [hs] at h; simp at h
    | cons s rest =>
      cases rest with
      | nil => rw [hs] at h; simp at h
      | cons s2 rest2 => rfl

/-- C9 witness: a store with no sprints has no open sprint. -/
theorem board_current_scope_spec_witness :
    get_open_sprints emptyStore = [] ∧
    board_tasks emptyStore true none = (none, some ["No active sprint found"]) :=
  ⟨rfl, (board_current_scope_spec emptyStore none).1 rfl⟩

/-- C3: a field-level `task_edit` call in which some provided field is
invalid — status outside the enum or a date failing validation, checked in
the source's field order — saves nothing, so the persisted task record is
completely unchanged even when the other provided fields are valid. -/
theorem task_edit_invalid_aborts (data : Store) (a : EditArgs)
    (hbad : (truthy a.status = true ∧ validate_status (a.status.getD "") = false) ∨
            (a.start_date.isSome = true ∧ validate_date a.start_date = false) ∨
            (a.review_date.isSome = true ∧ validate_date a.review_date = false) ∨
            (a.end_date.isSome = true ∧ validate_date a.end_date = false)) :
    (task_edit data a).1 = none := by
  unfold task_edit
  repeat' split
  any_goals rfl
  all_goals rcases hbad with ⟨h1, h2⟩ | ⟨h1, h2⟩ | ⟨h1, h2⟩ | ⟨h1, h2⟩ <;> simp_all

/-- C3 witness: an edit of T1 with a valid new name and an invalid start
date saves nothing. -/
theorem task_edit_invalid_aborts_witness :
    (badDateArgs.start_date.isSome = true ∧ validate_date badDateArgs.start_date = false) ∧
    (task_edit store0 badDateArgs).1 = none :=
  ⟨⟨by decide, by decide⟩,
   task_edit_invalid_aborts store0 badDateArgs (Or.inr (Or.inl ⟨by decide, by decide⟩))⟩

/-- C1: closing an existing open sprint persists a store in which exactly
the tasks of that sprint whose status is not DONE lose their sprint_code,
DONE tasks of that sprint and every other task are untouched, the sprint's
closed flag becomes true, and the report carries the count of returned
tasks. -/
theorem sprint_close_spec (data : Store) (code : String) (sprint : Sprint)
    (hfind : data.sprints.lookup code = some sprint) (hopen : sprint.closed = false) :
    ∃ d', (sprint_close data code).1 = some d' ∧
      (∀ k t, data.tasks.lookup k = some t →
        d'.tasks.lookup k =
          some (if t.sprint_code == some code && t.status != some "DONE"
                then { t with sprint_code := none } else t)) ∧
      d'.sprints.lookup code = some { sprint with closed := true } ∧
      (sprint_close data code).2 =
        sprint_close_msgs code ((data.tasks.map Prod.snd).countP (close_cond code)) := by
  have hres := sprint_close_open_eq data code sprint hfind hopen
  refine ⟨_, by rw [hres], ?_, ?_, by rw [hres]⟩
  · intro k t hl
    have hm := lookup_map_val
      (fun t => if close_cond code t then { t with sprint_code := none } else t) data.tasks k
    rw [hl] at hm
    simpa [close_cond] using hm
  · exact lookup_updEntry_self code { sprint with closed := true } sprint data.sprints hfind

/-- C1 witness: closing S2 over `storeClose`. -/
theorem sprint_close_spec_witness :
    storeClose.sprints.lookup "S2" = some sprOpen ∧ sprOpen.closed = false ∧
    (∃ d', (sprint_close storeClose "S2").1 = some d' ∧
      (∀ k t, storeClose.tasks.lookup k = some t →
        d'.tasks.lookup k =
          some (if t.sprint_code == some "S2" && t.status != some "DONE"
                then { t with sprint_code := none } else t)) ∧
      d'.sprints.lookup "S2" = some { sprOpen with closed := true } ∧
      (sprint_close storeClose "S2").2 =
        sprint_close_msgs "S2" ((storeClose.tasks.map Prod.snd).countP (close_cond "S2"))) :=
  ⟨by decide, rfl, sprint_close_spec storeClose "S2" sprOpen (by decide) rfl⟩

/-- C6: the closed flag is monotonic false→true: sprint creation inserts a
sprint with closed=false and leaves other sprints alone; closing an open
sprint flips only that sprint's flag; closing an already-closed sprint is
rejected with the already-closed report and no save; and no task-level
operation or board projection ever touches the sprints map. -/
theorem sprint_closed_monotonic (data : Store) :
    (∀ code name sd ed d', (sprint_add data code name sd ed).1 = some d' →
        d'.sprints.lookup code =
          some { code := code, name := name, start_date := sd, end_date := ed, closed := false } ∧
        ∀ k, k ≠ code → d'.sprints.lookup k = data.sprints.lookup k) ∧
    (∀ code sprint, data.sprints.lookup code = some sprint → sprint.closed = true →
        sprint_close data code = (none, ["Sprint already closed"])) ∧
    (∀ code sprint d', data.sprints.lookup code = some sprint → sprint.closed = false →
        (sprint_close data code).1 = some d' →
        d'.sprints.lookup code = some { sprint with closed := true } ∧
        ∀ k, k ≠ code → d'.sprints.lookup k = data.sprints.lookup k) ∧
    (∀ a d', (add_task data a).1 = some d' → d'.sprints = data.sprints) ∧
    (∀ code status d', (move_task data code status).1 = some d' →
        d'.sprints = data.sprints) ∧
    (∀ a d', (task_edit data a).1 = some d' → d'.sprints = data.sprints) ∧
    (∀ code lines d', (task_edit_vi data code lines).1 = some d' →
        d'.sprints = data.sprints) ∧
    (∀ code content d', (edit_task_comment data code content).1 = some d' →
        d'.sprints = data.sprints) ∧
    (∀ current sprintArg, (board_tasks data current sprintArg).1 = none) := by
  refine ⟨?_, ?_, ?_,
    fun a d' h => add_task_preserves_sprints data a d' h,
    fun code status d' h => move_task_preserves_sprints data code status d' h,
    fun a d' h => task_edit_preserves_sprints data a d' h,
    fun code lines d' h => task_edit_vi_preserves_sprints data code lines d' h,
    fun code content d' h => edit_task_comment_preserves_sprints data code content d' h,
    fun current sprintArg => board_tasks_no_save data current sprintArg⟩
  · intro code name sd ed d' h
    unfold sprint_add at h
    split at h
    · exact absurd h (by simp)
    · obtain rfl := Option.some.inj h
      have hnone : data.sprints.lookup code = none := by
        rename_i hguard
        exact Option.not_isSome_iff_eq_none.mp hguard
      constructor
      · rw [lookup_append_none code data.sprints _ hnone]
        simp [List.lookup]
      · intro k hk
        exact lookup_append_single_ne k code _ data.sprints hk
  · intro code sprint hfind hclosed
    unfold sprint_close
    rw [hfind]
    simp [hclosed]
  · intro code sprint d' hfind hopen h
    rw [sprint_close_open_eq data code sprint hfind hopen] at h
    obtain rfl := Option.some.inj h
    constructor
    · exact lookup_updEntry_self code { sprint with closed := true } sprint data.sprints hfind
    · intro k hk
      exact lookup_updEntry_ne code k { sprint with closed := true } data.sprints hk

/-- C6 witness: re-closing the closed sprint S1 of `storeClosedSpr` is
rejected. -/
theorem sprint_closed_monotonic_witness :
    storeClosedSpr.sprints.lookup "S1" = some sprClosed ∧ sprClosed.closed = true ∧
    sprint_close storeClosedSpr "S1" = (none, ["Sprint already closed"]) :=
  ⟨by decide, rfl, (sprint_closed_monotonic storeClosedSpr).2.1 "S1" sprClosed (by decide) rfl⟩

/-- C10: when the editor text contains no `---COMMENT---` line and the edit
saves, the stored task's comment field is `none` afterwards, whatever
comment the task carried before and whether a comment change was intended. -/
theorem task_edit_vi_no_marker_clears_comment (data : Store) (code : String)
    (lines : List String) (d' : Store)
    (hmark : "---COMMENT---" ∉ lines)
    (hsave : (task_edit_vi data code lines).1 = some d') :
    ∃ t', d'.tasks.lookup code = some t' ∧ t'.comment = none := by
  obtain ⟨task, hfind, rfl⟩ := task_edit_vi_success_inv data code lines d' hsave
  refine ⟨vi_final lines task, ?_, ?_⟩
  · exact lookup_updEntry_self code (vi_final lines task) task data.tasks hfind
  · show (vi_final lines task).comment = none
    unfold vi_final
    rw [parse_template_no_marker lines hmark]
    rfl

/-- C10 witness: an edit of T2 — whose comment is non-empty — through a
marker-free template clears the comment. -/
theorem task_edit_vi_no_marker_witness :
    task1.comment = some "keep" ∧
    ("---COMMENT---" ∉ ["name=X"]) ∧
    (task_edit_vi store1 "T2" ["name=X"]).1 =
      some { tasks := [("T2", { task1 with name := some "X", comment := none })],
             sprints := [] } ∧
    (∃ t', ({ tasks := [("T2", { task1 with name := some "X", comment := none })],
              sprints := [] } : Store).tasks.lookup "T2" = some t' ∧ t'.comment = none) :=
  ⟨rfl, by decide, by decide,
   task_edit_vi_no_marker_clears_comment store1 "T2" ["name=X"] _ (by decide) (by decide)⟩

/-- C2 (code bug): an editor template holding `status=` (empty value) and
`name=NewName` persists T1 with `status` cleared to `none` alongside the new
name — the empty value is applied as `None` instead of keeping the current
value, although the template's own instructions say an empty value keeps it. -/
theorem task_edit_vi_empty_value_clears :
    task_edit_vi store0 "T1" ["status=", "name=NewName"] =
      (some { tasks := [("T1", { task0 with status := none, name := some "NewName" })],
              sprints := [] },
       ["Task T1 updated via editor"]) ∧
    task0.status = some "TODO" := by
  constructor
  · decide
  · rfl

/-- C4 (counterexample): the editor line `code=HACK` — whose key is outside
the recognized field set — is not ignored: it rewrites the stored record's
code field. -/
theorem task_edit_vi_code_key_applied :
    (task_edit_vi store0 "T1" ["code=HACK"]).1 =
      some { tasks := [("T1", { task0 with code := some "HACK" })], sprints := [] } ∧
    ({ task0 with code := some "HACK" } : Task) ≠ task0 := by
  constructor
  · decide
  · decide

/-- C4 (amended): a key=value line is ignored exactly when its key is
neither `sprint` nor one of the stored record's ten field names: when every
parsed key lies outside both, the edit saves the task unchanged apart from
the always-recomputed comment block. -/
theorem task_edit_vi_unknown_keys_ignored (data : Store) (code : String)
    (lines : List String) (task : Task)
    (hfind : data.tasks.lookup code = some task)
    (hkeys : ∀ kv ∈ vi_updates lines, kv.1 ∉ task_keys ∧ kv.1 ≠ "sprint") :
    ∃ d', (task_edit_vi data code lines).1 = some d' ∧
      d'.tasks.lookup code =
        some { task with comment := comment_of_lines (parse_template lines).comment_lines } := by
  have hnone : ∀ k : String, k ∈ task_keys ∨ k = "sprint" →
      uget (vi_updates lines) k = none := by
    intro k hk
    have h0 : List.lookup k (vi_updates lines) = none := by
      refine lookup_eq_none_of_keys_ne k (vi_updates lines) ?_
      intro kv hkv he
      rcases hk with hk | hk
      · exact (hkeys kv hkv).1 (by rw [he]; exact hk)
      · exact (hkeys kv hkv).2 (by rw [he]; exact hk)
    unfold uget
    rw [h0]
  have hst := hnone "status" (Or.inl (by decide))
  have hsd := hnone "start_date" (Or.inl (by decide))
  have hrd := hnone "review_date" (Or.inl (by decide))
  have hed := hnone "end_date" (Or.inl (by decide))
  have het := hnone "estimated_time" (Or.inl (by decide))
  have hat := hnone "actual_time" (Or.inl (by decide))
  have hsp := hnone "sprint" (Or.inr rfl)
  have hfin : vi_final lines task =
      { task with comment := comment_of_lines (parse_template lines).comment_lines } := by
    unfold vi_final
    rw [apply_updates_unknown task (vi_updates lines) hkeys]
  refine ⟨{ data with tasks := updEntry code (vi_final lines task) data.tasks }, ?_, ?_⟩
  · unfold task_edit_vi
    rw [hfind]
    simp [hst, hsd, hrd, hed, het, hat, hsp, truthy]
  · rw [lookup_updEntry_self code (vi_final lines task) task data.tasks hfind, hfin]

/-- C4 amended-claim witness: an edit of T1 through a template holding only
the unrecognized line `foo=bar` saves the task unchanged (the comment block
is empty, so the comment is recomputed to `none`, its prior value). -/
theorem task_edit_vi_unknown_keys_witness :
    store0.tasks.lookup "T1" = some task0 ∧
    (∀ kv ∈ vi_updates ["foo=bar"], kv.1 ∉ task_keys ∧ kv.1 ≠ "sprint") ∧
    (∃ d', (task_edit_vi store0 "T1" ["foo=bar"]).1 = some d' ∧
      d'.tasks.lookup "T1" =
        some { task0 with
                 comment := comment_of_lines (parse_template ["foo=bar"]).comment_lines }) :=
  ⟨by decide, by decide,
   task_edit_vi_unknown_keys_ignored store0 "T1" ["foo=bar"] task0 (by decide) (by decide)⟩

/-- C8: the board projection never saves the store; any output it renders
is either one of the three failure reports or a header followed by exactly
the five status buckets in the fixed order TODO, IN_PROGRESS, REVIEW,
TESTING_DEPLOYMENT, DONE — each bucket listing the selected tasks of that
status and showing the empty-bucket placeholder when it has none; and over
a store whose task statuses all lie in the enum the projection always
renders output. -/
theorem board_projection_spec (data : Store) (current : Bool) (sprintArg : Option String) :
    (board_tasks data current sprintArg).1 = none ∧
    (∀ out, (board_tasks data current sprintArg).2 = some out →
      out = ["No active sprint found"] ∨ out = ["More than one active sprint found"] ∨
      out = ["Sprint not found"] ∨
      ∃ (sp : Option Sprint) (sel : List Task), (∀ t ∈ sel, ∃ kt ∈ data.tasks, kt.2 = t) ∧
        out = [board_title sp, charRun (board_title sp).length '=', ""] ++
          (STATUS_ORDER.map (fun st =>
            [st, charRun st.length '-'] ++
            (if (sel.filter (fun t => t.status == some st)).isEmpty then ["(no tasks)"]
             else (sel.filter (fun t => t.status == some st)).map task_board_line) ++
            [""])).flatten) ∧
    ((data.tasks.map Prod.snd).all statusValid = true →
      ((board_tasks data current sprintArg).2).isSome = true) := by
  refine ⟨board_tasks_no_save data current sprintArg, ?_, ?_⟩
  · intro out hout
    rcases board_tasks_out_inv data current sprintArg with h | h | h | ⟨sp, sel, hsub, heq⟩
    · rw [h] at hout; exact Or.inl (Option.some.inj hout).symm
    · rw [h] at hout; exact Or.inr (Or.inl (Option.some.inj hout).symm)
    · rw [h] at hout; exact Or.inr (Or.inr (Or.inl (Option.some.inj hout).symm))
    · rw [heq] at hout
      refine Or.inr (Or.inr (Or.inr ⟨sp, sel, ?_, board_render_out sp sel out hout⟩))
      exact fun t ht => List.mem_map.mp (hsub t ht)
  · intro hall
    rcases board_tasks_out_inv data current sprintArg with h | h | h | ⟨sp, sel, hsub, heq⟩
    · rw [h]; rfl
    · rw [h]; rfl
    · rw [h]; rfl
    · rw [heq]
      exact board_render_isSome sp sel
        (all_of_mem_all (data.tasks.map Prod.snd) sel hsub hall)

/-- C8 witness: the all-scope board of the empty store renders the five
empty buckets. -/
theorem board_projection_spec_witness :
    (board_tasks emptyStore false none).1 = none ∧
    ((emptyStore.tasks.map Prod.snd).all statusValid = true ∧
      ((board_tasks emptyStore false none).2).isSome = true) ∧
    (board_tasks emptyStore false none).2 =
      some ["KANBAN BOARD", "============", "",
            "TODO", "----", "(no tasks)", "",
            "IN_PROGRESS", "-----------", "(no tasks)", "",
            "REVIEW", "------", "(no tasks)", "",
            "TESTING_DEPLOYMENT", "------------------", "(no tasks)", "",
            "DONE", "----", "(no tasks)", ""] :=
  ⟨(board_projection_spec emptyStore false none).1,
   ⟨rfl, (board_projection_spec emptyStore false none).2.2 rfl⟩,
   by decide⟩

end Kanban
